import Mathlib

/-
Verification of the pl_fairscale adapter (pl_fairscale/precision/sharded_amp.py)
and its fully-sharded strategy test harness (tests/test_ddp_fully_sharded.py),
via a shallow embedding of the Python code into Lean.
-/

namespace PLFairscale

/-- The declared precision literals of ShardedMixedPrecisionPlugin.__init__,
Literal["16", 16, "bf16"]: the string "16", the integer 16, and the
string "bf16". -/
inductive Precision where
  | str16
  | int16
  | bf16
  deriving DecidableEq, Repr

/-- Python str() applied to a precision literal, as used on line 29 of
sharded_amp.py. str("16") = "16", str(16) = "16", str("bf16") = "bf16". -/
def Precision.toStr : Precision → String
  | .str16 => "16"
  | .int16 => "16"
  | .bf16 => "bf16"

/-- A gradient-scaler object as it reaches the base MixedPrecisionPlugin
constructor: either the ShardedGradScaler() freshly constructed with no
arguments inside __init__, or an externally supplied scaler object,
identified by its object id. -/
inductive ScalerObj where
  | freshSharded
  | external (id : Nat)
  deriving DecidableEq, Repr

/-- Error values the adapter code could raise of its own. The source file
sharded_amp.py defines no exception type and contains no raise statement,
so this type is empty. -/
inductive AdapterError : Type

/-- The state the base MixedPrecisionPlugin constructor stores on the
resulting plugin: the precision, the device string, and the (possibly
absent) scaler object it received. -/
structure PluginState where
  precision : Precision
  device : String
  scaler : Option ScalerObj
  deriving DecidableEq, Repr

/-- The scaler expression on line 29 of sharded_amp.py, evaluated in
__init__ before delegating to the base constructor:
ShardedGradScaler() if scaler is None and str(precision) == "16" else None.
The caller-supplied scaler argument, when present, is modelled by the id
of the supplied object. -/
def initScalerArg (precision : Precision) (scaler : Option Nat) : Option ScalerObj :=
  if scaler = none ∧ precision.toStr = "16" then some ScalerObj.freshSharded else none

/-- ShardedMixedPrecisionPlugin.__init__ (lines 25 to 30 of sharded_amp.py):
its whole body is the single super().__init__ call forwarding precision,
device and the conditionally constructed scaler. The Except layer records
that the body has no error branch of its own; AdapterError is empty. -/
def ShardedMixedPrecisionPlugin.init (precision : Precision) (device : String)
    (scaler : Option Nat) : Except AdapterError PluginState :=
  Except.ok ⟨precision, device, initScalerArg precision scaler⟩

/-- A clip value of Python type Union[int, float]. The float case is
modelled as a rational number: the adapter never computes with the value,
it only forwards it. -/
inductive ClipVal where
  | ofInt (n : Int)
  | ofFloat (q : Rat)
  deriving DecidableEq

/-- A call made on the OSS optimizer argument. -/
inductive OSSCall where
  | clipGradNorm (clipVal : ClipVal)
  deriving DecidableEq

/-- ShardedMixedPrecisionPlugin.clip_grad_by_norm (lines 32 to 33 of
sharded_amp.py): the whole body is the single statement
optimizer.clip_grad_norm(clip_val). The result records the plugin state
after the call, the list of calls performed on the optimizer, and the
returned value; the Python method returns None, modelled as
none : Option Empty. -/
def clip_grad_by_norm (self : PluginState) (clip_val : ClipVal) :
    PluginState × List OSSCall × Option Empty :=
  (self, [OSSCall.clipGradNorm clip_val], none)

/-- A torch module as built and wrapped by TestFSDPModelManualWrapped in
tests/test_ddp_fully_sharded.py: _init_model builds a Sequential of
Linear(32, 32), ReLU(), Linear(32, 2); fairscale wrapping produces a
FullyShardedDataParallel node holding the wrapped module. -/
inductive Module where
  | linear (inFeatures outFeatures : Nat)
  | relu
  | sequential (mods : List Module)
  | fullyShardedDataParallel (module : Module)

/-- fairscale.nn.wrap as invoked inside configure_sharded_model: wraps the
module in a FullyShardedDataParallel. -/
def wrap (m : Module) : Module := Module.fullyShardedDataParallel m

/-- isinstance(layer, FullyShardedDataParallel). -/
def Module.isFSDP : Module → Bool
  | .fullyShardedDataParallel _ => true
  | _ => false

/-- The for-loop of configure_sharded_model: for i, layer in
enumerate(self.layer), replace the entry at every even index i by
wrap(layer). -/
def wrapEvenEntries (mods : List Module) : List Module :=
  mods.enum.map (fun p => if p.1 % 2 = 0 then wrap p.2 else p.2)

/-- TestFSDPModelManualWrapped.configure_sharded_model (lines 41 to 48 of
tests/test_ddp_fully_sharded.py) acting on self.layer: if the layer is
already a FullyShardedDataParallel instance the method returns at once,
leaving the layer untouched; otherwise it wraps the even-indexed entries
of the Sequential in place and then wraps the whole layer. In the test
model the unwrapped layer is always the Sequential from _init_model; the
final match arm covers the remaining Module shapes by wrapping directly. -/
def configure_sharded_model (layer : Module) : Module :=
  if layer.isFSDP then layer
  else
    match layer with
    | Module.sequential mods => wrap (Module.sequential (wrapEvenEntries mods))
    | m => wrap m

/-- An element of a parameter tensor, identified bit-for-bit by its bit
pattern. -/
abbrev BitPattern := Nat

/-- A parameter tensor: the sequence of the bit patterns of its elements. -/
abbrev Tensor := List BitPattern

/-- A state dict: named parameter tensors in order. -/
abbrev StateDict := List (String × Tensor)

/-- A saved checkpoint file, as produced with weights_only=True. -/
structure Checkpoint where
  state_dict : StateDict
  deriving DecidableEq

/-- Modelled from the spec: trainer.save_checkpoint through the
fully-sharded strategy. The DDPFullyShardedStrategy code is not under
src/ (only the tests import it); per the spec the checkpoint stores the
unsharded state dict obtained from
trainer.strategy.lightning_module_state_dict(). -/
def save_checkpoint (sd : StateDict) : Checkpoint := Checkpoint.mk sd

/-- Modelled from the spec: cls.load_from_checkpoint reads the stored
state dict back into a freshly created unwrapped model; per the spec,
checkpoint save and load preserve parameter values bit-for-bit after
unsharding. -/
def load_from_checkpoint (c : Checkpoint) : StateDict := c.state_dict

/-- torch.equal on two tensors: same shape and element-wise equal values,
which on bit-pattern tensors is list equality. The ddp_param.float().cpu()
conversion applied in the test is the identity on the already unsharded
full-precision values modelled here. -/
def torchEqual (a b : Tensor) : Bool := a == b

/-- The function _assert_save_equality of tests/test_ddp_fully_sharded.py
(lines 113 to 122): zips the values of the pre-save state dict with the
values of the state dict of the reloaded model and checks torch.equal on
every pair. -/
def assert_save_equality (modelStateDict savedStateDict : StateDict) : Bool :=
  ((modelStateDict.map Prod.snd).zip (savedStateDict.map Prod.snd)).all
    (fun p => torchEqual p.1 p.2)

/-- Outcome of a trainer.fit call as observed by the test suite. -/
inductive FitOutcome where
  | completes
  | raisesMisconfiguration (message : String)
  deriving DecidableEq

/-- The exception text matched by test_fsdp_gradient_clipping_raises
(quoting and backtick characters of the original match pattern elided). -/
def normClipUnsupportedMessage : String :=
  "gradient_clip_algorithm=norm is currently not supported for FullySharded"

/-- Modelled from the spec: the behavior of the collaborator framework
for gradient clipping under the fully-sharded strategy, as recorded by
the repository in test_fsdp_gradient_clipping_raises (lines 203 to
221 of tests/test_ddp_fully_sharded.py). The deciding code, the
FullyShardedMixedPrecisionPlugin and DDPFullyShardedStrategy classes, is
not under src/. The test fits the model with
gradient_clip_algorithm="norm" and asserts that fit raises a
MisconfigurationException matching normClipUnsupportedMessage; the
repository records no fit outcome for any other clipping algorithm, so
the model is undefined (none) there. -/
def fsdpFitOutcome (gradient_clip_algorithm : String) : Option FitOutcome :=
  if gradient_clip_algorithm = "norm" then
    some (FitOutcome.raisesMisconfiguration normClipUnsupportedMessage)
  else
    none

/- Helper lemmas -/

/-- Zipping a list of tensors with itself and checking torch.equal on each
pair always succeeds. -/
theorem all_torchEqual_zip_self (xs : List Tensor) :
    (xs.zip xs).all (fun p => torchEqual p.1 p.2) = true := by
  induction xs with
  | nil => rfl
  | cons x xs ih =>
    simp [List.zip, List.zipWith, List.all_cons, ih, torchEqual]

/- Claim theorems -/

/-- C1, counterexample: with precision the string "16" and an explicitly
supplied scaler (object id 0), the scaler forwarded to the base
constructor is None, not the supplied object, so the supplied scaler is
not the one used by the resulting plugin. -/
theorem supplied_scaler_not_used_counterexample :
    initScalerArg Precision.str16 (some 0) = none ∧
    (none : Option ScalerObj) ≠ some (ScalerObj.external 0) := by
  exact ⟨rfl, by simp⟩

/-- C1, amended: if a scaler is explicitly supplied to the constructor,
it is discarded: the scaler forwarded to the base constructor is None,
for every precision value. -/
theorem supplied_scaler_discarded (p : Precision) (id : Nat) :
    initScalerArg p (some id) = none := by
  simp [initScalerArg]

/-- C2: constructing the plugin with precision "16" or 16 and no supplied
scaler yields a plugin holding a freshly constructed ShardedGradScaler,
and the held scaler is non-null exactly when str(precision) = "16" and no
external scaler was supplied. -/
theorem scaler_nonnull_iff_fp16_and_unsupplied :
    initScalerArg Precision.str16 none = some ScalerObj.freshSharded ∧
    initScalerArg Precision.int16 none = some ScalerObj.freshSharded ∧
    ∀ (p : Precision) (s : Option Nat),
      initScalerArg p s ≠ none ↔ (p.toStr = "16" ∧ s = none) := by
  refine ⟨rfl, rfl, ?_⟩
  intro p s
  cases p <;> cases s <;> simp [initScalerArg, Precision.toStr]

/-- C3: constructing the plugin with precision "bf16" and no supplied
scaler forwards None to the base constructor, so the resulting plugin
holds no scaler. -/
theorem bf16_no_scaler :
    initScalerArg Precision.bf16 none = none ∧
    ∀ d : String,
      ShardedMixedPrecisionPlugin.init Precision.bf16 d none =
        Except.ok ⟨Precision.bf16, d, none⟩ := by
  exact ⟨rfl, fun d => rfl⟩

/-- C4: clip_grad_by_norm performs on the optimizer exactly one call,
clip_grad_norm with the clip value unchanged, whatever the plugin state
and whether the clip value is an int or a float. -/
theorem clip_grad_by_norm_delegates_once (st : PluginState) (v : ClipVal) :
    (clip_grad_by_norm st v).2.1 = [OSSCall.clipGradNorm v] := rfl

/-- C5, counterexample: the fit outcome recorded by the repository for
gradient_clip_algorithm = "norm" under the fully-sharded strategy is a
raised MisconfigurationException, not a completed fit, so norm-based
clipping is not accepted. -/
theorem norm_clipping_not_accepted_counterexample :
    fsdpFitOutcome "norm" ≠ some FitOutcome.completes ∧
    fsdpFitOutcome "norm" =
      some (FitOutcome.raisesMisconfiguration normClipUnsupportedMessage) := by
  refine ⟨?_, rfl⟩
  intro h
  simp [fsdpFitOutcome] at h

/-- C5, amended: when training with the fully-sharded strategy, requesting
norm-based gradient clipping (gradient_clip_algorithm = "norm") is
rejected by the collaborator framework with a MisconfigurationException
whose message states that norm clipping is not supported for the
fully-sharded plugin; the repository records no outcome for value-based
clipping. -/
theorem norm_clipping_rejected :
    fsdpFitOutcome "norm" =
      some (FitOutcome.raisesMisconfiguration normClipUnsupportedMessage) := rfl

/-- C6: saving a checkpoint of the unsharded state dict and loading it
back restores every parameter tensor bit-for-bit, and the equality
assertion of _assert_save_equality succeeds on the round trip. -/
theorem save_load_roundtrip_preserves_params (sd : StateDict) :
    load_from_checkpoint (save_checkpoint sd) = sd ∧
    assert_save_equality sd (load_from_checkpoint (save_checkpoint sd)) = true := by
  refine ⟨rfl, ?_⟩
  simpa [assert_save_equality, load_from_checkpoint, save_checkpoint]
    using all_torchEqual_zip_self (sd.map Prod.snd)

/-- C7: configure_sharded_model is idempotent with respect to wrapping:
if the layer is already a FullyShardedDataParallel instance, the method
returns without wrapping again and the layer is unchanged. -/
theorem configure_sharded_model_no_rewrap (layer : Module)
    (h : layer.isFSDP = true) : configure_sharded_model layer = layer := by
  unfold configure_sharded_model
  simp [h]

/-- Witness for C7: the layer wrapped as in the test
(FSDP around the Sequential of Linear, ReLU, Linear) is an FSDP instance
and is returned unchanged. -/
theorem configure_sharded_model_no_rewrap_witness :
    (Module.fullyShardedDataParallel
      (Module.sequential [Module.linear 32 32, Module.relu, Module.linear 32 2])).isFSDP
      = true ∧
    configure_sharded_model
      (Module.fullyShardedDataParallel
        (Module.sequential [Module.linear 32 32, Module.relu, Module.linear 32 2])) =
      Module.fullyShardedDataParallel
        (Module.sequential [Module.linear 32 32, Module.relu, Module.linear 32 2]) :=
  ⟨rfl, configure_sharded_model_no_rewrap _ rfl⟩

/-- C8: the adapter validates nothing and has no error branch: for every
precision in the declared set, every device string and every scaler
argument, __init__ succeeds (its error type is empty and it always
returns ok), and clip_grad_by_norm performs only the single delegated
optimizer call; the adapter itself can raise no error of its own. -/
theorem adapter_has_no_error_branch :
    (∀ (p : Precision) (d : String) (s : Option Nat),
      (ShardedMixedPrecisionPlugin.init p d s).isOk = true) ∧
    (∀ e : AdapterError, False) ∧
    (∀ (st : PluginState) (v : ClipVal),
      clip_grad_by_norm st v = (st, [OSSCall.clipGradNorm v], none)) := by
  refine ⟨fun p d s => rfl, ?_, fun st v => rfl⟩
  intro e
  cases e

/-- C9: for every precision and scaler argument, the scaler __init__
forwards to the base constructor is either a freshly constructed
no-argument ShardedGradScaler or None; a caller-supplied scaler object is
never the one forwarded. -/
theorem forwarded_scaler_fresh_or_none (p : Precision) (s : Option Nat) :
    (initScalerArg p s = none ∨ initScalerArg p s = some ScalerObj.freshSharded) ∧
    ∀ id : Nat, initScalerArg p s ≠ some (ScalerObj.external id) := by
  constructor
  · by_cases h : s = none ∧ p.toStr = "16"
    · right
      simp [initScalerArg, h]
    · left
      simp [initScalerArg, h]
  · intro id
    by_cases h : s = none ∧ p.toStr = "16" <;> simp [initScalerArg, h]

/-- C10: clip_grad_by_norm returns None and leaves the plugin state
unchanged; its only effect is the single delegated optimizer call, and
its observable output does not depend on any plugin attribute. -/
theorem clip_grad_by_norm_frame (st : PluginState) (v : ClipVal) :
    (clip_grad_by_norm st v).1 = st ∧
    (clip_grad_by_norm st v).2.2 = none ∧
    ∀ st' : PluginState, (clip_grad_by_norm st' v).2 = (clip_grad_by_norm st v).2 :=
  ⟨rfl, rfl, fun _ => rfl⟩

end PLFairscale
